import Mathlib

/-!
Shallow embedding of the flight-fare prediction pipeline in
`src/main_model.py` (class `FlightPricePredictor`), together with proofs
about the claims of its specification.

Conventions of the embedding:
* Prices and model outputs are rationals (`ℚ`); the Python floats carry
  exact decimal values in every computation the claims touch.
* Pandas `NaN` / parse failures are `Option.none`; Python exceptions are
  `Except.error`.
* Python strings are processed through `String.toList` and structurally
  recursive `List Char` functions so that every definition evaluates
  inside the kernel.
-/

namespace FlightModel

/-! ## String utilities (Python `str.split`, `int(...)`, `str.strip`) -/

/-- Splits a character list at every occurrence of `sep`, keeping empty
segments, exactly like Python `s.split(sep)` for a one-character `sep`. -/
def splitOnCharAux (sep : Char) : List Char → List Char → List (List Char)
  | [], acc => [acc.reverse]
  | c :: cs, acc =>
    if c = sep then acc.reverse :: splitOnCharAux sep cs []
    else splitOnCharAux sep cs (c :: acc)

def splitOnChar (sep : Char) (cs : List Char) : List (List Char) :=
  splitOnCharAux sep cs []

def digitVal (c : Char) : Option ℕ :=
  if c.isDigit then some (c.toNat - 48) else none

def parseDigitsAux : List Char → ℕ → Option ℕ
  | [], acc => some acc
  | c :: cs, acc =>
    match digitVal c with
    | some d => parseDigitsAux cs (acc * 10 + d)
    | none => none

/-- Decimal digit string to a natural number; `none` when empty or when a
non-digit occurs (Python `int(...)` raising `ValueError`). -/
def parseNatStr (cs : List Char) : Option ℕ :=
  match cs with
  | [] => none
  | _ => parseDigitsAux cs 0

/-- Python `int(...)` on the strings this program feeds it: an optional
minus sign followed by decimal digits. -/
def parseIntStr (cs : List Char) : Option ℤ :=
  match cs with
  | '-' :: rest => (parseNatStr rest).map (fun n => -(n : ℤ))
  | _ => (parseNatStr cs).map (fun n => (n : ℤ))

def isSpaceChar (c : Char) : Bool :=
  c = ' ' || c = '\t' || c = '\n' || c = '\r'

/-- Python `str.strip()`. -/
def stripStr (s : String) : String :=
  String.mk ((((s.toList).dropWhile isSpaceChar).reverse.dropWhile isSpaceChar).reverse)

/-! ## Clock-time parsing (`time_to_minutes`, lines 119-124 and 384-389)

Both the training path and the inference path split the string on `:`
into exactly two integer fields and return `hour * 60 + minute`; the
parser does not range-check the fields, so `"50:00"` parses to 3000.
The training version returns `np.nan` on failure (modelled as `none`),
the inference version returns `0`. -/

def time_to_minutes (s : String) : Option ℤ :=
  match splitOnChar ':' s.toList with
  | [h, m] => do
    let hour ← parseIntStr h
    let minute ← parseIntStr m
    pure (hour * 60 + minute)
  | _ => none

/-- Inference-path variant (line 384): identical parse, except that a
failure yields the sentinel `0` instead of `NaN`. -/
def time_to_minutes_pred (s : String) : ℤ :=
  match time_to_minutes s with
  | some v => v
  | none => 0

/-! ## Booking-advance and time-of-day buckets -/

/-- Lines 107-115 (training path). -/
def categorize_advance_booking (days : ℤ) : ℕ :=
  if days < 7 then 0
  else if days < 30 then 1
  else if days < 90 then 2
  else 3

/-- Lines 372-380 (inference path); the source repeats the function body
verbatim inside `predict_single_flight`. -/
def categorize_advance_booking_pred (days : ℤ) : ℕ :=
  if days < 7 then 0
  else if days < 30 then 1
  else if days < 90 then 2
  else 3

/-- Lines 131-140: bucket of the departure hour (`minutes // 60`,
Python floor division). -/
def categorize_time_of_day (minutes : ℤ) : ℕ :=
  let hour := Int.fdiv minutes 60
  if 6 ≤ hour ∧ hour < 12 then 0
  else if 12 ≤ hour ∧ hour < 18 then 1
  else if 18 ≤ hour ∧ hour < 22 then 2
  else 3

/-! ## Flight duration (lines 126-129 and 391-396) -/

/-- Training path per-row flight duration: arrival minus departure
minutes, plus 1440 exactly once when negative; `none` (a `NaN` that the
feature mask later drops) when either clock string fails to parse. -/
def flight_duration_row (dep arr : String) : Option ℤ := do
  let d ← time_to_minutes dep
  let a ← time_to_minutes arr
  let raw := a - d
  pure (if raw < 0 then raw + 1440 else raw)

/-- Inference path flight duration (parse failures become 0 minutes). -/
def flight_duration_pred (dep arr : String) : ℤ :=
  let raw := time_to_minutes_pred arr - time_to_minutes_pred dep
  if raw < 0 then raw + 1440 else raw

/-! ## Timestamps (`pd.to_datetime` on the formats this program feeds it)

The program parses ISO-like strings: `YYYY-MM-DD`, optionally followed by
a space or `T` and a clock `HH:MM:SS` (seconds may carry a fractional
part, as in `2025-08-15T17:00:00.000`).  Out-of-range months, days and
clock fields fail to parse, as they do under pandas. -/

structure DateTime where
  year : ℕ
  month : ℕ
  day : ℕ
  hour : ℕ
  minute : ℕ
  second : ℕ
deriving DecidableEq, Repr

def isLeapYear (y : ℕ) : Bool :=
  (y % 4 == 0 && y % 100 != 0) || y % 400 == 0

def daysInMonth (y m : ℕ) : ℕ :=
  if m = 2 then (if isLeapYear y then 29 else 28)
  else if m = 4 ∨ m = 6 ∨ m = 9 ∨ m = 11 then 30
  else 31

def daysBeforeMonth (y m : ℕ) : ℕ :=
  (List.range (m - 1)).foldl (fun acc i => acc + daysInMonth y (i + 1)) 0

/-- Days elapsed since 0001-01-01 in the proleptic Gregorian calendar
(pandas' calendar); 0001-01-01 is day 0 and a Monday. -/
def daysFromEpoch (y m d : ℕ) : ℕ :=
  let py := y - 1
  365 * py + py / 4 - py / 100 + py / 400 + daysBeforeMonth y m + (d - 1)

/-- Pandas `.dt.dayofweek`: Monday = 0 … Sunday = 6. -/
def dayOfWeek (dt : DateTime) : ℕ :=
  daysFromEpoch dt.year dt.month dt.day % 7

def toSeconds (dt : DateTime) : ℕ :=
  86400 * daysFromEpoch dt.year dt.month dt.day
    + 3600 * dt.hour + 60 * dt.minute + dt.second

/-- Splits a timestamp string at the first space or `T` into a date part
and an optional time part. -/
def splitAtDateSep : List Char → List Char × Option (List Char)
  | [] => ([], none)
  | c :: cs =>
    if c = ' ' ∨ c = 'T' then ([], some cs)
    else
      let (d, t) := splitAtDateSep cs
      (c :: d, t)

def parseDatePart (cs : List Char) : Option (ℕ × ℕ × ℕ) :=
  match splitOnChar '-' cs with
  | [ys, ms, ds] => do
    let y ← parseNatStr ys
    let m ← parseNatStr ms
    let d ← parseNatStr ds
    if 1 ≤ y ∧ 1 ≤ m ∧ m ≤ 12 ∧ 1 ≤ d ∧ d ≤ daysInMonth y m then some (y, m, d)
    else none
  | _ => none

/-- Seconds field, possibly with a fractional part (`"00.000"`). -/
def parseSecondsField (cs : List Char) : Option ℕ :=
  match splitOnChar '.' cs with
  | [s] => parseNatStr s
  | [s, frac] => do
    let sv ← parseNatStr s
    let _ ← parseNatStr frac
    pure sv
  | _ => none

def parseClockPart (cs : List Char) : Option (ℕ × ℕ × ℕ) :=
  match splitOnChar ':' cs with
  | [hs, ms] => do
    let h ← parseNatStr hs
    let m ← parseNatStr ms
    if h ≤ 23 ∧ m ≤ 59 then some (h, m, 0) else none
  | [hs, ms, ss] => do
    let h ← parseNatStr hs
    let m ← parseNatStr ms
    let s ← parseSecondsField ss
    if h ≤ 23 ∧ m ≤ 59 ∧ s ≤ 59 then some (h, m, s) else none
  | _ => none

/-- `pd.to_datetime` restricted to the formats occurring in this
program; `none` is `NaT` under `errors='coerce'` and an exception
otherwise. -/
def parseDateTime (s : String) : Option DateTime :=
  let (dcs, tcs) := splitAtDateSep s.toList
  match parseDatePart dcs with
  | none => none
  | some (y, m, d) =>
    match tcs with
    | none => some ⟨y, m, d, 0, 0, 0⟩
    | some t =>
      match parseClockPart t with
      | none => none
      | some (hh, mm, ss) => some ⟨y, m, d, hh, mm, ss⟩

/-- `(flight_date - create_at).dt.days` (lines 103 and 368): a pandas
timedelta's `.days` component floors towards minus infinity. -/
def days_between (ca fd : DateTime) : ℤ :=
  Int.fdiv ((toSeconds fd : ℤ) - (toSeconds ca : ℤ)) 86400

/-! ## Categorical encoders (lines 163-169 and 414-426)

`sklearn.LabelEncoder.fit_transform` stores `classes_ = np.unique(values)`
— the distinct training values in lexicographic order — and encodes a
value as its index in that array; `inverse_transform` is the index
lookup.  `transform` raises `ValueError` on a value outside `classes_`. -/

/-- Byte-wise lexicographic order on strings (the order `np.unique`
sorts by for the ASCII data this program encodes). -/
def lexLe : List Char → List Char → Bool
  | [], _ => true
  | _ :: _, [] => false
  | a :: as, b :: bs => if a = b then lexLe as bs else decide (a.toNat < b.toNat)

def insertSorted (x : String) : List String → List String
  | [] => [x]
  | y :: ys => if lexLe x.toList y.toList then x :: y :: ys else y :: insertSorted x ys

def sortStrings : List String → List String
  | [] => []
  | x :: xs => insertSorted x (sortStrings xs)

/-- `LabelEncoder.fit`: the sorted distinct training values. -/
def fitClasses (vals : List String) : List String :=
  sortStrings vals.dedup

/-- `LabelEncoder.transform` on a value known to be in `classes_`. -/
def encodeLabel (classes : List String) (v : String) : ℕ :=
  List.indexOf v classes

/-- `LabelEncoder.inverse_transform`: `none` models the raised error for
an out-of-range code. -/
def decodeLabel (classes : List String) (code : ℕ) : Option String :=
  classes.get? code

/-- One fitted `LabelEncoder` as stored in `self.label_encoders`. -/
structure LabelEnc where
  classes : List String
deriving DecidableEq, Repr

/-- Inference-path encoding (lines 419-426): `le.transform` inside
`try`; a `ValueError` (value outside the vocabulary) falls back to code
0, with a printed warning when `classes_` is non-empty.  Returns the
code and whether the warning was emitted. -/
def encodeCat (classes : List String) (v : String) : ℚ × Bool :=
  if v ∈ classes then ((encodeLabel classes v : ℕ), false)
  else if classes ≠ [] then (0, true)
  else (0, false)

/-! ## Model selection (`train_and_evaluate_models`, lines 196-278)

The per-candidate metrics dictionary, with the numeric fields the
selection and reporting read.  The fitted model object itself and the
float metrics not consulted by any claim are carried faithfully enough
by these fields; `cv_mae_mean` is `-cv_scores.mean()` over the 5
shuffled folds of the training split. -/

structure CandidateResult where
  name : String
  cv_mae_mean : ℚ
  cv_mae_std : ℚ
  train_mae : ℚ
  test_mae : ℚ
  test_r2 : ℚ
deriving DecidableEq, Repr

/-- Lines 269-273: `min(self.results.keys(), key=lambda k:
self.results[k]['cv_mae_mean'])` — Python `min` keeps the earliest
element among ties and raises on an empty collection (`none`). -/
def selectBest : List CandidateResult → Option CandidateResult
  | [] => none
  | c :: cs =>
    some (cs.foldl (fun best x => if x.cv_mae_mean < best.cv_mae_mean then x else best) c)

/-! ## DataCleaner (`load_and_preprocess_data`, lines 34-95)

A raw CSV row after `pd.read_csv(..., names=column_names, skiprows=1)`.
The `str` columns are strings; `price` is numeric.  (A row whose price
cell is empty would be `NaN`; no claim depends on missing prices, and
the aircraft-type "missing" case surfaces as the empty string after
`strip`, which line 91 filters together with line 92's `dropna`.) -/

structure RawRow where
  create_at : String
  flight_number : String
  type_of_plane : String
  departure_airport : String
  arrival_airport : String
  flight_date : String
  departure_time : String
  arrival_time : String
  classes : String
  price : ℚ
deriving DecidableEq, Repr

/-- `df.drop_duplicates()`: keeps the first occurrence of each distinct
row. -/
def dropDupAux : List RawRow → List RawRow → List RawRow
  | [], _ => []
  | r :: rs, seen =>
    if r ∈ seen then dropDupAux rs seen else r :: dropDupAux rs (r :: seen)

def dropDuplicates (rows : List RawRow) : List RawRow :=
  dropDupAux rows []

/-- Insertion sort on rationals (for the quantile computation). -/
def insertRat (x : ℚ) : List ℚ → List ℚ
  | [] => [x]
  | y :: ys => if x ≤ y then x :: y :: ys else y :: insertRat x ys

def sortRats : List ℚ → List ℚ
  | [] => []
  | x :: xs => insertRat x (sortRats xs)

/-- Pandas `Series.quantile(q)` with the default linear interpolation,
for `0 ≤ q ≤ 1` on a non-empty list: position `q·(n-1)` between the
sorted values, interpolating between the two neighbouring entries.
(`⌊pos⌋ = pos.num.toNat / pos.den` because the position is
non-negative.) -/
def quantile (xs : List ℚ) (q : ℚ) : ℚ :=
  let s := sortRats xs
  let n := s.length
  if n = 0 then 0
  else
    let pos : ℚ := q * ((n : ℚ) - 1)
    let lo : ℕ := pos.num.toNat / pos.den
    let frac : ℚ := pos - (lo : ℚ)
    let hi : ℕ := if frac = 0 then lo else lo + 1
    let xlo := s.getD lo 0
    let xhi := s.getD hi 0
    xlo + frac * (xhi - xlo)

def listMin : List ℚ → ℚ
  | [] => 0
  | x :: xs => xs.foldl min x

def listMax : List ℚ → ℚ
  | [] => 0
  | x :: xs => xs.foldl max x

/-- `Series.mean()`; the empty case (pandas `NaN`) is the junk value 0,
never consulted by a claim. -/
def listMean (xs : List ℚ) : ℚ :=
  (xs.foldl (· + ·) 0) / (xs.length : ℚ)

/-- `self.price_stats` (lines 66-73).  The `std` field of the source is
a square root and hence irrational in general; no claim reads it, so it
is not carried here. -/
structure PriceStats where
  min : ℚ
  max : ℚ
  mean : ℚ
  Q1 : ℚ
  Q3 : ℚ
deriving DecidableEq, Repr

/-- Lines 55-63: quartiles of the *input* rows' prices and the filter to
`[Q1 - 1.5·IQR, Q3 + 1.5·IQR]`. -/
def outlierFilter (rows : List RawRow) : List RawRow :=
  let q1 := quantile (rows.map RawRow.price) (1/4)
  let q3 := quantile (rows.map RawRow.price) (3/4)
  let iqr := q3 - q1
  let lb := q1 - 3/2 * iqr
  let ub := q3 + 3/2 * iqr
  rows.filter (fun r => lb ≤ r.price ∧ r.price ≤ ub)

/-- Lines 75-76: `pd.to_datetime(..., errors='coerce')` then
`dropna(subset=['create_at'])`. -/
def tsFilter (rows : List RawRow) : List RawRow :=
  rows.filter (fun r => (parseDateTime r.create_at).isSome)

/-- Lines 78-88: `parse_flight_date` demands a string containing `'T'`
that `pd.to_datetime` accepts; other rows become `NaT` and are
dropped. -/
def parse_flight_date_ok (s : String) : Bool :=
  s.toList.contains 'T' && (parseDateTime s).isSome

def fdFilter (rows : List RawRow) : List RawRow :=
  rows.filter (fun r => parse_flight_date_ok r.flight_date)

/-- Lines 90-92: strip whitespace on `type_of_plane`, drop empties. -/
def aircraftFilter (rows : List RawRow) : List RawRow :=
  (rows.map (fun r => { r with type_of_plane := stripStr r.type_of_plane })).filter
    (fun r => r.type_of_plane ≠ "")

structure CleanResult where
  rows : List RawRow
  stats : PriceStats
deriving DecidableEq, Repr

/-- `load_and_preprocess_data` in the order the source executes it:
deduplicate (line 46); compute Q1/Q3 over the deduplicated rows and drop
price outliers (lines 55-63); record `price_stats` with min/max/mean of
the post-outlier rows and the pre-outlier Q1/Q3 (lines 66-73); only then
filter unparsable creation timestamps (75-76), flight dates (87-88) and
empty aircraft types (90-92). -/
def load_and_preprocess_data (rows : List RawRow) : CleanResult :=
  let d1 := dropDuplicates rows
  let q1 := quantile (d1.map RawRow.price) (1/4)
  let q3 := quantile (d1.map RawRow.price) (3/4)
  let d2 := outlierFilter d1
  let stats : PriceStats :=
    { min := listMin (d2.map RawRow.price)
      max := listMax (d2.map RawRow.price)
      mean := listMean (d2.map RawRow.price)
      Q1 := q1
      Q3 := q3 }
  let d5 := aircraftFilter (fdFilter (tsFilter d2))
  { rows := d5, stats := stats }

/-- The cleaning pipeline in the order the specification states it
(§4.1 steps 1-5): deduplicate, drop unparsable creation timestamps,
drop bad flight dates, drop empty aircraft types, and only then compute
`PriceStatistics` on the surviving rows and drop price outliers.  This
definition follows the spec's words, for comparison with
`load_and_preprocess_data`, which follows the source. -/
def load_and_preprocess_spec_order (rows : List RawRow) : CleanResult :=
  let d4 := aircraftFilter (fdFilter (tsFilter (dropDuplicates rows)))
  let prices := d4.map RawRow.price
  let q1 := quantile prices (1/4)
  let q3 := quantile prices (3/4)
  let stats : PriceStats :=
    { min := listMin prices
      max := listMax prices
      mean := listMean prices
      Q1 := q1
      Q3 := q3 }
  let iqr := q3 - q1
  let lb := q1 - 3/2 * iqr
  let ub := q3 + 3/2 * iqr
  { rows := d4.filter (fun r => lb ≤ r.price ∧ r.price ≤ ub), stats := stats }

/-! ## Predictor state, artifact store and `predict_single_flight`

The mutable instance attributes of `FlightPricePredictor` that
`predict_single_flight` reads.  The best model is the bundle's regressor
as a function from the assembled feature vector to the raw price;
`none` is Python `None` (no model trained or loaded yet).  The empty
`price_stats` / popularity dicts of a fresh instance are `none`; the
populated dicts are `some`. -/

structure PredictorState where
  best_model : Option (List ℚ → ℚ)
  model_type : Option String
  feature_columns : List String
  label_encoders : List (String × LabelEnc)
  price_stats : Option PriceStats
  route_popularity_stats : Option (ℚ × ℚ)
  airline_popularity_stats : Option (ℚ × ℚ)

/-- `__init__` (lines 19-32): no model, empty dicts.  (`feature_columns`
is Python `None`, modelled as `[]`: `predict_single_flight` raises
before ever reading it in that state.) -/
def initialPredictor : PredictorState :=
  { best_model := none
    model_type := none
    feature_columns := []
    label_encoders := []
    price_stats := none
    route_popularity_stats := none
    airline_popularity_stats := none }

/-- The pickled `model_data` dict (lines 321-334).  The three stats
entries are `Option`al because `load_model` reads them with
`dict.get` defaults (an older artifact may lack them). -/
structure Artifact where
  model : List ℚ → ℚ
  model_type : String
  feature_columns : List String
  label_encoders : List (String × LabelEnc)
  price_stats : Option PriceStats
  route_popularity_stats : Option (ℚ × ℚ)
  airline_popularity_stats : Option (ℚ × ℚ)

/-- `load_model` (lines 338-349): `price_stats` falls back to the empty
dict (`none`); the popularity stats fall back to the documented defaults
`{'mean': 100, 'std': 50}` and `{'mean': 50, 'std': 25}`. -/
def load_model (a : Artifact) : PredictorState :=
  { best_model := some a.model
    model_type := some a.model_type
    feature_columns := a.feature_columns
    label_encoders := a.label_encoders
    price_stats := a.price_stats
    route_popularity_stats := some (a.route_popularity_stats.getD (100, 50))
    airline_popularity_stats := some (a.airline_popularity_stats.getD (50, 25)) }

/-- The prediction request dict (lines 454-464 show its shape). -/
structure FlightInput where
  flight_number : String
  departure_airport : String
  arrival_airport : String
  departure_time : String
  arrival_time : String
  classes : String
  type_of_plane : String
  create_at : String
  flight_date : String
deriving DecidableEq, Repr

/-- Line 414: the categorical columns encoded at inference. -/
def categorical_cols : List String :=
  ["flight_number", "departure_airport", "arrival_airport", "classes",
   "type_of_plane", "airline"]

/-- The string value of a categorical column of `df_input`; `airline` is
`flight_number[:2]` (line 411). -/
def catValue (f : FlightInput) (col : String) : String :=
  if col = "flight_number" then f.flight_number
  else if col = "departure_airport" then f.departure_airport
  else if col = "arrival_airport" then f.arrival_airport
  else if col = "classes" then f.classes
  else if col = "type_of_plane" then f.type_of_plane
  else String.mk (f.flight_number.toList.take 2)

/-- Lines 416-426: for each categorical column that has a fitted
encoder, create the `<col>_encoded` column via `encodeCat`; columns
without an encoder are *not* created.  Also collects the names of the
columns for which the unseen-value warning was printed. -/
def encodeColsAux (encs : List (String × LabelEnc)) (f : FlightInput) :
    List String → List (String × ℚ) × List String
  | [] => ([], [])
  | col :: rest =>
    let prev := encodeColsAux encs f rest
    match encs.lookup col with
    | none => prev
    | some le =>
      let cw := encodeCat le.classes (catValue f col)
      ((col ++ "_encoded", cw.1) :: prev.1, if cw.2 then col :: prev.2 else prev.2)

/-- Lines 360-426: the derived columns of `df_input`, as a
name-to-value map, plus the warning list.  Errors: the two
`pd.to_datetime` calls raise on unparsable input (no `errors='coerce'`
here), and `self.route_popularity_stats['mean']` /
`self.airline_popularity_stats['mean']` raise `KeyError` on the empty
dict.  The raw string columns of `df_input` (`flight_number`, …,
`airline`) are not part of this numeric map: no feature column produced
by this program's training run names them.  All numeric cells are
non-`NaN` (clock-parse failures already became the sentinel 0), so the
`fillna(0)` of line 435 has nothing left to fill at inference time. -/
def derivedRecord (st : PredictorState) (f : FlightInput) (ca fd : DateTime) :
    Except String (List (String × ℚ) × List String) := do
  let route_pop ← match st.route_popularity_stats with
    | some st => Except.ok st.1
    | none => Except.error "KeyError: mean"
  let airline_pop ← match st.airline_popularity_stats with
    | some st => Except.ok st.1
    | none => Except.error "KeyError: mean"
  let dia := days_between ca fd
  let dep_min := time_to_minutes_pred f.departure_time
  let arr_min := time_to_minutes_pred f.arrival_time
  let fdur := arr_min - dep_min
  let fdur := if fdur < 0 then fdur + 1440 else fdur
  let (encCols, ws) := encodeColsAux st.label_encoders f categorical_cols
  Except.ok
    ([("create_hour", (ca.hour : ℚ)),
      ("create_day_of_week", (dayOfWeek ca : ℚ)),
      ("create_month", (ca.month : ℚ)),
      ("flight_month", (fd.month : ℚ)),
      ("flight_day_of_week", (dayOfWeek fd : ℚ)),
      ("days_in_advance", (dia : ℚ)),
      ("is_weekend_booking", if 5 ≤ dayOfWeek ca then 1 else 0),
      ("is_weekend_flight", if 5 ≤ dayOfWeek fd then 1 else 0),
      ("booking_category", (categorize_advance_booking_pred dia : ℚ)),
      ("departure_minutes", (dep_min : ℚ)),
      ("arrival_minutes", (arr_min : ℚ)),
      ("flight_duration", (fdur : ℚ)),
      ("departure_time_category", (categorize_time_of_day dep_min : ℚ)),
      ("route_popularity", route_pop),
      ("airline_popularity", airline_pop)] ++ encCols, ws)

/-- Line 435, `df_input[self.feature_columns]`: select the recorded
columns in their recorded order; a column absent from the frame raises
`KeyError`.  (The subsequent `.fillna(0)` replaces `NaN` cells of the
*selected* columns; see `derivedRecord` — no derived cell is `NaN`.) -/
def assembleFeatures (cols : List String) (record : List (String × ℚ)) :
    Except String (List ℚ) :=
  match cols with
  | [] => Except.ok []
  | c :: rest =>
    match record.lookup c with
    | none => Except.error ("KeyError: " ++ c)
    | some v => do
      let vs ← assembleFeatures rest record
      Except.ok (v :: vs)

/-- Lines 360-437: everything `predict_single_flight` does between the
model-presence check and the call to `self.best_model.predict` — parse
the two timestamps, derive the feature columns, and assemble the input
vector in the order of `self.feature_columns`. -/
def deriveFeatures (st : PredictorState) (f : FlightInput) :
    Except String (List ℚ × List String) := do
  let ca ← match parseDateTime f.create_at with
    | some d => Except.ok d
    | none => Except.error "to_datetime: create_at"
  let fd ← match parseDateTime f.flight_date with
    | some d => Except.ok d
    | none => Except.error "to_datetime: flight_date"
  let (rec, ws) ← derivedRecord st f ca fd
  let x ← assembleFeatures st.feature_columns rec
  Except.ok (x, ws)

/-- `predict_single_flight` (lines 353-449): raises when no model is
present (line 354); otherwise derives the features, runs the model, and
— only when `self.price_stats` is a non-empty dict — clips the raw
output by `np.clip(prediction, max(min, 100000), min(max, 50000000))`,
which equals `min (max raw lo) hi`. -/
def predict_single_flight (st : PredictorState) (f : FlightInput) :
    Except String ℚ :=
  match st.best_model with
  | none => Except.error "? model đâu ??"
  | some model =>
    match deriveFeatures st f with
    | Except.error e => Except.error e
    | Except.ok (x, _) =>
      let prediction := model x
      match st.price_stats with
      | some ps =>
        let min_price := max ps.min 100000
        let max_price := min ps.max 50000000
        Except.ok (min (max prediction min_price) max_price)
      | none => Except.ok prediction

/-! ## Theorems about the claims -/

/-- C7: for every integer `days_in_advance`, `booking_category` is 0 iff
`days < 7`, 1 iff `7 ≤ days < 30`, 2 iff `30 ≤ days < 90`, and 3 iff
`days ≥ 90` — the four buckets partition ℤ with no gap or overlap at
6/7, 29/30 and 89/90 — and the training-path and inference-path
functions are one and the same function. -/
theorem booking_category_partition :
    (∀ d : ℤ,
      (categorize_advance_booking d = 0 ↔ d < 7)
      ∧ (categorize_advance_booking d = 1 ↔ 7 ≤ d ∧ d < 30)
      ∧ (categorize_advance_booking d = 2 ↔ 30 ≤ d ∧ d < 90)
      ∧ (categorize_advance_booking d = 3 ↔ 90 ≤ d))
    ∧ categorize_advance_booking_pred = categorize_advance_booking := by
  refine ⟨fun d => ?_, rfl⟩
  unfold categorize_advance_booking
  refine ⟨?_, ?_, ?_, ?_⟩ <;> split_ifs <;> simp_all <;> omega

/-- Witness for `booking_category_partition`: 45 days in advance (the
spec's end-to-end example) lands in bucket 2 on both paths. -/
theorem booking_category_partition_witness :
    categorize_advance_booking 45 = 2 ∧ categorize_advance_booking_pred 45 = 2 := by
  constructor
  · exact (booking_category_partition.1 45).2.2.1.mpr (by decide)
  · rw [booking_category_partition.2]
    exact (booking_category_partition.1 45).2.2.1.mpr (by decide)

/-- C6 (amended): for a training row whose departure and arrival clock
strings parse to minutes inside `[0, 1440)` — i.e. well-formed `HH:MM`
times — the derived `flight_duration` lies in `[0, 1440)`.  (The bound
fails for parseable but out-of-range strings such as `"50:00"`; see the
counterexample.) -/
theorem flight_duration_range (dep arr : String) (dm am d : ℤ)
    (hdep : time_to_minutes dep = some dm) (harr : time_to_minutes arr = some am)
    (hdm : 0 ≤ dm ∧ dm < 1440) (ham : 0 ≤ am ∧ am < 1440)
    (hd : flight_duration_row dep arr = some d) :
    0 ≤ d ∧ d < 1440 := by
  unfold flight_duration_row at hd
  rw [hdep, harr] at hd
  simp only [Option.bind_eq_bind, Option.some_bind, Option.pure_def,
    Option.some.injEq] at hd
  split at hd <;> omega

/-- Witness for `flight_duration_range`: the overnight flight 23:30 →
01:00 gets duration 90 after the +1440 correction, inside `[0, 1440)`. -/
theorem flight_duration_range_witness : (0:ℤ) ≤ 90 ∧ (90:ℤ) < 1440 :=
  flight_duration_range "23:30" "01:00" 1410 60 90 (by decide) (by decide)
    (by decide) (by decide) (by decide)

/-- C6 counterexample: the claim as stated quantifies over every row
that survives feature engineering, but `time_to_minutes` accepts
`"50:00"` (3000 minutes), and the single +1440 correction leaves the
duration of a 10:00 → "50:00" row at 2400 ∉ [0, 1440); such a row has no
`NaN` feature and survives. -/
theorem flight_duration_out_of_range_cex :
    flight_duration_row "10:00" "50:00" = some 2400
    ∧ ¬ ((0:ℤ) ≤ 2400 ∧ (2400:ℤ) < 1440) := by
  exact ⟨by decide, by decide⟩

theorem mem_insertSorted {a x : String} {l : List String} :
    a ∈ insertSorted x l ↔ a = x ∨ a ∈ l := by
  induction l with
  | nil => simp [insertSorted]
  | cons y ys ih =>
    unfold insertSorted
    split_ifs
    · simp
    · simp only [List.mem_cons, ih]
      tauto

theorem nodup_insertSorted {x : String} {l : List String}
    (hx : x ∉ l) (hl : l.Nodup) : (insertSorted x l).Nodup := by
  induction l with
  | nil => simp [insertSorted]
  | cons y ys ih =>
    unfold insertSorted
    split_ifs
    · exact List.nodup_cons.mpr ⟨hx, hl⟩
    · rcases List.nodup_cons.mp hl with ⟨hy, hys⟩
      have hx' : x ∉ ys := fun h => hx (List.mem_cons_of_mem _ h)
      refine List.nodup_cons.mpr ⟨?_, ih hx' hys⟩
      intro hmem
      rcases mem_insertSorted.mp hmem with rfl | h
      · exact hx (List.mem_cons_self _ _)
      · exact hy h

theorem mem_sortStrings {a : String} {l : List String} :
    a ∈ sortStrings l ↔ a ∈ l := by
  induction l with
  | nil => simp [sortStrings]
  | cons x xs ih =>
    unfold sortStrings
    rw [mem_insertSorted]
    simp [ih]

theorem nodup_sortStrings {l : List String} (hl : l.Nodup) :
    (sortStrings l).Nodup := by
  induction l with
  | nil => simp [sortStrings]
  | cons x xs ih =>
    rcases List.nodup_cons.mp hl with ⟨hx, hxs⟩
    exact nodup_insertSorted (fun h => hx (mem_sortStrings.mp h)) (ih hxs)

theorem mem_fitClasses {a : String} {vals : List String} :
    a ∈ fitClasses vals ↔ a ∈ vals := by
  unfold fitClasses
  rw [mem_sortStrings, List.mem_dedup]

theorem nodup_fitClasses (vals : List String) : (fitClasses vals).Nodup :=
  nodup_sortStrings (List.nodup_dedup vals)

/-- C8: a fitted `LabelEncoder` is a bijection between the training
vocabulary and the code range `[0, classes_.length)`: every training
value encodes below the length, decoding its code returns the value,
two training values with the same code are equal, and every code below
the length decodes to a training value that encodes back to it. -/
theorem encode_decode_roundtrip (vals : List String) (v : String) (hv : v ∈ vals) :
    decodeLabel (fitClasses vals) (encodeLabel (fitClasses vals) v) = some v
    ∧ encodeLabel (fitClasses vals) v < (fitClasses vals).length
    ∧ (∀ w ∈ vals, encodeLabel (fitClasses vals) w = encodeLabel (fitClasses vals) v → w = v)
    ∧ (∀ code, code < (fitClasses vals).length → ∃ w ∈ vals,
        decodeLabel (fitClasses vals) code = some w
        ∧ encodeLabel (fitClasses vals) w = code) := by
  have hvc : v ∈ fitClasses vals := mem_fitClasses.mpr hv
  have hlt : List.indexOf v (fitClasses vals) < (fitClasses vals).length :=
    List.indexOf_lt_length.mpr hvc
  refine ⟨?_, hlt, ?_, ?_⟩
  · unfold decodeLabel encodeLabel
    rw [List.get?_eq_get hlt, List.indexOf_get hlt]
  · intro w hw heq
    have hwc : w ∈ fitClasses vals := mem_fitClasses.mpr hw
    have hltw : List.indexOf w (fitClasses vals) < (fitClasses vals).length :=
      List.indexOf_lt_length.mpr hwc
    have h1 := List.indexOf_get hltw
    have h2 := List.indexOf_get hlt
    unfold encodeLabel at heq
    rw [← h1, ← h2]
    congr 1
    exact Fin.ext heq
  · intro code hcode
    refine ⟨(fitClasses vals).get ⟨code, hcode⟩, ?_, ?_, ?_⟩
    · exact mem_fitClasses.mp (List.get_mem _ _ _)
    · unfold decodeLabel
      rw [List.get?_eq_get hcode]
    · unfold encodeLabel
      exact List.get_indexOf (nodup_fitClasses vals) ⟨code, hcode⟩

/-- Witness for `encode_decode_roundtrip`: fitting on
`["SGN","HAN","DAD","HAN"]` sorts the distinct values to
`["DAD","HAN","SGN"]`; encoding `"SGN"` gives 2, decoding 2 returns
`"SGN"`. -/
theorem encode_decode_roundtrip_witness :
    decodeLabel (fitClasses ["SGN","HAN","DAD","HAN"])
      (encodeLabel (fitClasses ["SGN","HAN","DAD","HAN"]) "SGN") = some "SGN" :=
  (encode_decode_roundtrip ["SGN","HAN","DAD","HAN"] "SGN" (by decide)).1

theorem selectFold_mem (c : CandidateResult) (cs : List CandidateResult) :
    cs.foldl (fun best x => if x.cv_mae_mean < best.cv_mae_mean then x else best) c
      ∈ c :: cs := by
  induction cs generalizing c with
  | nil => simp
  | cons x xs ih =>
    simp only [List.foldl_cons]
    have h := ih (if x.cv_mae_mean < c.cv_mae_mean then x else c)
    rcases List.mem_cons.mp h with h1 | h1
    · rw [h1]
      split_ifs <;> simp
    · simp [List.mem_cons_of_mem, h1]

theorem selectFold_le (c : CandidateResult) (cs : List CandidateResult) :
    (cs.foldl (fun best x => if x.cv_mae_mean < best.cv_mae_mean then x else best)
        c).cv_mae_mean ≤ c.cv_mae_mean
    ∧ ∀ r ∈ cs,
      (cs.foldl (fun best x => if x.cv_mae_mean < best.cv_mae_mean then x else best)
          c).cv_mae_mean ≤ r.cv_mae_mean := by
  induction cs generalizing c with
  | nil => simp
  | cons x xs ih =>
    simp only [List.foldl_cons]
    have h := ih (if x.cv_mae_mean < c.cv_mae_mean then x else c)
    have hc : (if x.cv_mae_mean < c.cv_mae_mean then x else c).cv_mae_mean
        ≤ c.cv_mae_mean := by
      split_ifs with hlt
      · exact le_of_lt hlt
      · exact le_refl _
    have hx : (if x.cv_mae_mean < c.cv_mae_mean then x else c).cv_mae_mean
        ≤ x.cv_mae_mean := by
      split_ifs with hlt
      · exact le_refl _
      · exact le_of_not_lt hlt
    refine ⟨le_trans h.1 hc, ?_⟩
    intro r hr
    rcases List.mem_cons.mp hr with rfl | h1
    · exact le_trans h.1 hx
    · exact h.2 r h1

/-- Replaces a candidate's `test_mae` field, leaving the name and the
cross-validation fields untouched. -/
def updTest (g : CandidateResult → ℚ) (x : CandidateResult) : CandidateResult :=
  { x with test_mae := g x }

theorem selectBest_cons (c : CandidateResult) (cs : List CandidateResult) :
    selectBest (c :: cs)
      = some (cs.foldl
          (fun best x => if x.cv_mae_mean < best.cv_mae_mean then x else best) c) :=
  rfl

theorem selectFold_map (g : CandidateResult → ℚ) (c : CandidateResult)
    (cs : List CandidateResult) :
    (cs.map (updTest g)).foldl
        (fun best x => if x.cv_mae_mean < best.cv_mae_mean then x else best)
        (updTest g c)
      = updTest g
          (cs.foldl (fun best x => if x.cv_mae_mean < best.cv_mae_mean then x else best) c) := by
  induction cs generalizing c with
  | nil => simp
  | cons x xs ih =>
    simp only [List.map_cons, List.foldl_cons]
    have hpick :
        (if (updTest g x).cv_mae_mean < (updTest g c).cv_mae_mean
          then updTest g x else updTest g c)
        = updTest g (if x.cv_mae_mean < c.cv_mae_mean then x else c) := by
      by_cases hlt : x.cv_mae_mean < c.cv_mae_mean <;> simp [updTest, hlt]
    rw [hpick]
    exact ih (if x.cv_mae_mean < c.cv_mae_mean then x else c)

/-- C5: whenever `selectBest` returns a candidate, that candidate is one
of the results and its `cv_mae_mean` is minimal among all candidates;
moreover replacing every candidate's `test_mae` by anything at all
leaves the selected name unchanged — the selection reads only the
cross-validated MAE, never the test-set MAE. -/
theorem select_best_model (results : List CandidateResult) (c : CandidateResult)
    (h : selectBest results = some c) :
    c ∈ results
    ∧ (∀ r ∈ results, c.cv_mae_mean ≤ r.cv_mae_mean)
    ∧ ∀ g : CandidateResult → ℚ,
        (selectBest (results.map (updTest g))).map CandidateResult.name
          = some c.name := by
  cases results with
  | nil => cases h
  | cons c0 cs =>
    rw [selectBest_cons] at h
    have hc : cs.foldl
        (fun best x => if x.cv_mae_mean < best.cv_mae_mean then x else best) c0 = c :=
      Option.some.inj h
    refine ⟨?_, ?_, ?_⟩
    · rw [← hc]
      exact selectFold_mem c0 cs
    · intro r hr
      rw [← hc]
      rcases List.mem_cons.mp hr with h1 | h1
      · rw [h1]
        exact (selectFold_le c0 cs).1
      · exact (selectFold_le c0 cs).2 r h1
    · intro g
      simp only [List.map_cons]
      rw [selectBest_cons, selectFold_map g c0 cs, hc]
      rfl

/-- The spec's model-selection example: cross-validated MAEs 500000,
480000, 510000, with the middle candidate's test MAE deliberately the
worst of the three. -/
def exCandRF : CandidateResult :=
  { name := "Random Forest", cv_mae_mean := 500000, cv_mae_std := 0,
    train_mae := 1, test_mae := 1, test_r2 := 0 }

def exCandGB : CandidateResult :=
  { name := "Gradient Boosting", cv_mae_mean := 480000, cv_mae_std := 0,
    train_mae := 1, test_mae := 999999, test_r2 := 0 }

def exCandDT : CandidateResult :=
  { name := "Decision Tree", cv_mae_mean := 510000, cv_mae_std := 0,
    train_mae := 1, test_mae := 2, test_r2 := 0 }

def exCandidates : List CandidateResult := [exCandRF, exCandGB, exCandDT]

/-- Witness for `select_best_model`: the 480000-CV candidate is selected
despite having the worst test MAE, and its CV MAE is at most the first
candidate's. -/
theorem select_best_model_witness :
    exCandGB ∈ exCandidates ∧ exCandGB.cv_mae_mean ≤ exCandRF.cv_mae_mean :=
  ⟨(select_best_model exCandidates exCandGB (by decide)).1,
   (select_best_model exCandidates exCandGB (by decide)).2.1 exCandRF (by decide)⟩

/-- A well-formed example request, shaped like the demo flights of
lines 454-464. -/
def exFlight : FlightInput :=
  { flight_number := "VJ198", departure_airport := "SGN", arrival_airport := "HAN",
    departure_time := "08:00", arrival_time := "10:15", classes := "Eco",
    type_of_plane := "Airbus A321", create_at := "2024-01-15 10:30:00",
    flight_date := "2024-01-20T08:00:00" }

/-- C9: calling `predict_single_flight` on any state without a model —
in particular the freshly constructed `initialPredictor` — raises the
`ValueError` of line 355 for every input record; no prediction is
produced. -/
theorem predict_requires_model (st : PredictorState) (f : FlightInput)
    (h : st.best_model = none) :
    predict_single_flight st f = Except.error "? model đâu ??" := by
  unfold predict_single_flight
  rw [h]

/-- Witness for `predict_requires_model`: the initial state rejects the
example flight. -/
theorem predict_requires_model_witness :
    predict_single_flight initialPredictor exFlight = Except.error "? model đâu ??" :=
  predict_requires_model initialPredictor exFlight rfl

/-- C2 (amended): with a loaded model and a non-empty `price_stats`
whose induced floor `max(trainMin, 100000)` does not exceed the ceiling
`min(trainMax, 50000000)`, the returned price is the raw model output
clipped into that interval: below-floor raw outputs return the floor,
above-ceiling raw outputs return the ceiling, and in-between raw
outputs pass through unchanged.  (When the floor exceeds the ceiling,
`np.clip` returns the ceiling even for below-floor raw outputs; see the
counterexample.) -/
theorem predict_clipping (st : PredictorState) (f : FlightInput)
    (m : List ℚ → ℚ) (ps : PriceStats) (x : List ℚ) (ws : List String)
    (hm : st.best_model = some m) (hps : st.price_stats = some ps)
    (hx : deriveFeatures st f = Except.ok (x, ws))
    (hb : max ps.min 100000 ≤ min ps.max 50000000) :
    predict_single_flight st f
      = Except.ok (min (max (m x) (max ps.min 100000)) (min ps.max 50000000))
    ∧ (m x < max ps.min 100000 →
        predict_single_flight st f = Except.ok (max ps.min 100000))
    ∧ (min ps.max 50000000 < m x →
        predict_single_flight st f = Except.ok (min ps.max 50000000))
    ∧ (max ps.min 100000 ≤ m x → m x ≤ min ps.max 50000000 →
        predict_single_flight st f = Except.ok (m x)) := by
  have hpred : predict_single_flight st f
      = Except.ok (min (max (m x) (max ps.min 100000)) (min ps.max 50000000)) := by
    unfold predict_single_flight
    rw [hm, hx, hps]
  refine ⟨hpred, ?_, ?_, ?_⟩
  · intro hlo
    rw [hpred, max_eq_right (le_of_lt hlo), min_eq_left hb]
  · intro hhi
    have h1 : min ps.max 50000000 ≤ max (m x) (max ps.min 100000) :=
      le_trans (le_of_lt hhi) (le_max_left _ _)
    rw [hpred, min_eq_right h1]
  · intro h1 h2
    rw [hpred, max_eq_left h1, min_eq_left h2]

/-- A bundle whose raw model output sits strictly inside the clipping
interval. -/
def exStateClip : PredictorState :=
  { best_model := some (fun _ => 999999), model_type := some "Random Forest",
    feature_columns := ["create_hour"], label_encoders := [],
    price_stats := some { min := 500000, max := 2000000, mean := 1, Q1 := 1, Q3 := 1 },
    route_popularity_stats := some (100, 50),
    airline_popularity_stats := some (50, 25) }

/-- Witness for `predict_clipping`: raw output 999999 inside
`[500000, 2000000]` passes through unchanged. -/
theorem predict_clipping_witness :
    predict_single_flight exStateClip exFlight = Except.ok 999999 :=
  (predict_clipping exStateClip exFlight (fun _ => 999999)
      { min := 500000, max := 2000000, mean := 1, Q1 := 1, Q3 := 1 }
      [10] [] rfl rfl (by rfl) (by decide)).2.2.2 (by decide) (by decide)

/-- A loaded bundle from a degenerate training set: every training price
is below 100000, so the clipping floor `max(80000, 100000) = 100000`
exceeds the ceiling `min(90000, 50000000) = 90000`. -/
def exStateDegenerate : PredictorState :=
  { best_model := some (fun _ => 50000), model_type := some "Decision Tree",
    feature_columns := ["create_hour"], label_encoders := [],
    price_stats := some { min := 80000, max := 90000, mean := 85000, Q1 := 82000, Q3 := 88000 },
    route_popularity_stats := some (100, 50),
    airline_popularity_stats := some (50, 25) }

/-- C2 counterexample: for this loaded bundle the raw output 50000 lies
below the floor `max(trainMin, 100000) = 100000`, yet the returned
price is the ceiling 90000, not the floor promised by the claim. -/
theorem predict_degenerate_bounds_cex :
    predict_single_flight exStateDegenerate exFlight = Except.ok 90000
    ∧ (50000 : ℚ) < max (80000 : ℚ) 100000
    ∧ (90000 : ℚ) ≠ max (80000 : ℚ) 100000 := by
  refine ⟨by rfl, by decide, by decide⟩

theorem encodeColsAux_mem (encs : List (String × LabelEnc)) (f : FlightInput)
    (cols : List String) (col : String) (le : LabelEnc)
    (hcol : col ∈ cols) (henc : encs.lookup col = some le) :
    (col ++ "_encoded", (encodeCat le.classes (catValue f col)).1)
        ∈ (encodeColsAux encs f cols).1
    ∧ ((encodeCat le.classes (catValue f col)).2 = true →
        col ∈ (encodeColsAux encs f cols).2) := by
  induction cols with
  | nil => cases hcol
  | cons c rest ih =>
    rcases List.mem_cons.mp hcol with h1 | h1
    · subst h1
      unfold encodeColsAux
      rw [henc]
      constructor
      · exact List.mem_cons_self _ _
      · intro hw
        simp only [hw, if_true]
        exact List.mem_cons_self _ _
    · have ih1 := ih h1
      unfold encodeColsAux
      cases hle : encs.lookup c with
      | none => exact ih1
      | some le2 =>
        constructor
        · exact List.mem_cons_of_mem _ ih1.1
        · intro hw
          dsimp only
          split_ifs
          · exact List.mem_cons_of_mem _ (ih1.2 hw)
          · exact ih1.2 hw

/-- C3: an inference-time categorical value absent from a fitted
encoder's vocabulary encodes to the fallback code 0 with the warning
emitted, the `<col>_encoded` column is created with value 0, and —
since the fallback never raises — the prediction still completes
whenever its other inputs are in order. -/
theorem unseen_category_fallback (st : PredictorState) (f : FlightInput)
    (col : String) (le : LabelEnc)
    (hcol : col ∈ categorical_cols)
    (henc : st.label_encoders.lookup col = some le)
    (hne : le.classes ≠ [])
    (hv : catValue f col ∉ le.classes) :
    encodeCat le.classes (catValue f col) = (0, true)
    ∧ (col ++ "_encoded", (0 : ℚ)) ∈ (encodeColsAux st.label_encoders f categorical_cols).1
    ∧ col ∈ (encodeColsAux st.label_encoders f categorical_cols).2
    ∧ (∀ m x ws, st.best_model = some m →
        deriveFeatures st f = Except.ok (x, ws) →
        ∃ p, predict_single_flight st f = Except.ok p) := by
  have hcat : encodeCat le.classes (catValue f col) = (0, true) := by
    unfold encodeCat
    rw [if_neg hv, if_pos hne]
  have hmem := encodeColsAux_mem st.label_encoders f categorical_cols col le hcol henc
  refine ⟨hcat, ?_, ?_, ?_⟩
  · have h1 := hmem.1
    rw [hcat] at h1
    exact h1
  · exact hmem.2 (by rw [hcat])
  · intro m x ws hm hx
    unfold predict_single_flight
    rw [hm, hx]
    cases st.price_stats <;> exact ⟨_, rfl⟩

/-- A bundle whose `classes` encoder was fitted on
`["Business", "Eco"]`. -/
def exStateEnc : PredictorState :=
  { best_model := some (fun _ => 1000000), model_type := some "Random Forest",
    feature_columns := ["classes_encoded"],
    label_encoders := [("classes", ⟨["Business", "Eco"]⟩)],
    price_stats := none,
    route_popularity_stats := some (100, 50),
    airline_popularity_stats := some (50, 25) }

/-- The example flight with a fare class never seen in training. -/
def exFlightUnseen : FlightInput :=
  { exFlight with classes := "Premium" }

/-- Witness for `unseen_category_fallback`: `"Premium"` is not in the
fitted vocabulary `["Business", "Eco"]`, encodes to 0 with the warning,
and the prediction still returns a price. -/
theorem unseen_category_fallback_witness :
    encodeCat ["Business", "Eco"] (catValue exFlightUnseen "classes") = (0, true)
    ∧ predict_single_flight exStateEnc exFlightUnseen = Except.ok 1000000 :=
  ⟨(unseen_category_fallback exStateEnc exFlightUnseen "classes" ⟨["Business", "Eco"]⟩
      (by decide) (by decide) (by decide) (by decide)).1, by rfl⟩

/-- C4 (amended): `df_input[self.feature_columns]` assembles the model
input in exactly the column order recorded in the bundle — the value of
each listed column, taken in list order, never reordered — but a column
present in the list and absent from the derived record raises a
`KeyError` that aborts the prediction, instead of being filled with 0;
the `fillna(0)` of line 435 only fills missing values of columns that
exist.  -/
theorem feature_assembly_order (cols : List String) (record : List (String × ℚ)) :
    ((∀ c ∈ cols, (record.lookup c).isSome) →
      assembleFeatures cols record
        = Except.ok (cols.map (fun c => (record.lookup c).getD 0)))
    ∧ ((∃ c ∈ cols, record.lookup c = none) →
      ∃ e, assembleFeatures cols record = Except.error e) := by
  induction cols with
  | nil =>
    constructor
    · intro
      rfl
    · rintro ⟨c, hc, _⟩
      cases hc
  | cons c rest ih =>
    constructor
    · intro h
      have hc := h c (List.mem_cons_self _ _)
      obtain ⟨v, hv⟩ := Option.isSome_iff_exists.mp hc
      unfold assembleFeatures
      rw [hv, ih.1 (fun d hd => h d (List.mem_cons_of_mem _ hd))]
      simp [hv]
      rfl
    · rintro ⟨d, hd, hnone⟩
      rcases List.mem_cons.mp hd with h1 | h1
      · rw [h1] at hnone
        unfold assembleFeatures
        rw [hnone]
        exact ⟨_, rfl⟩
      · unfold assembleFeatures
        cases hl : record.lookup c with
        | none => exact ⟨_, rfl⟩
        | some v =>
          obtain ⟨e, he⟩ := ih.2 ⟨d, h1, hnone⟩
          rw [he]
          exact ⟨e, rfl⟩

/-- Witness for `feature_assembly_order`: both listed columns exist, so
assembly succeeds and follows the order of the column list, not the
record. -/
theorem feature_assembly_order_witness :
    assembleFeatures ["a", "b"] [("b", 2), ("a", 1)] = Except.ok [1, 2] :=
  (feature_assembly_order ["a", "b"] [("b", 2), ("a", 1)]).1 (by decide)

/-- A stale bundle recording a feature column (`mystery_encoded`) that
the inference path never derives (its categorical column has no fitted
encoder in the bundle). -/
def exStateMissingCol : PredictorState :=
  { best_model := some (fun _ => 1000000), model_type := some "Random Forest",
    feature_columns := ["create_hour", "mystery_encoded"],
    label_encoders := [], price_stats := none,
    route_popularity_stats := some (100, 50),
    airline_popularity_stats := some (50, 25) }

/-- C4 counterexample: the column `mystery_encoded` is in the bundle's
feature list but absent from the derived input record, and the
prediction fails with a `KeyError` — it is not treated as missing and
filled with 0 as the claim states. -/
theorem missing_feature_column_cex :
    predict_single_flight exStateMissingCol exFlight
      = Except.error "KeyError: mystery_encoded" := by
  rfl

/-- C10: when the pickled artifact lacks the `price_stats` key,
`load_model` leaves `self.price_stats` as the empty dict, and every
prediction made from that bundle returns the raw model output with the
clipping step silently skipped — even a raw output far below the
100000 floor comes back unchanged. -/
theorem load_missing_price_stats_unclipped (a : Artifact) (f : FlightInput)
    (x : List ℚ) (ws : List String)
    (hps : a.price_stats = none)
    (hx : deriveFeatures (load_model a) f = Except.ok (x, ws)) :
    (load_model a).price_stats = none
    ∧ predict_single_flight (load_model a) f = Except.ok (a.model x) := by
  have h1 : (load_model a).price_stats = none := hps
  refine ⟨h1, ?_⟩
  unfold predict_single_flight
  rw [show (load_model a).best_model = some a.model from rfl, hx, h1]

/-- An old-style artifact with no `price_stats` entry whose model
predicts the absurdly low raw price 5. -/
def exArtifactOld : Artifact :=
  { model := fun _ => 5, model_type := "Decision Tree",
    feature_columns := ["create_hour"], label_encoders := [],
    price_stats := none,
    route_popularity_stats := none,
    airline_popularity_stats := none }

/-- Witness for `load_missing_price_stats_unclipped`: loading
`exArtifactOld` and predicting returns the raw 5 — far below the 100000
floor that clipping would have imposed. -/
theorem load_missing_price_stats_unclipped_witness :
    predict_single_flight (load_model exArtifactOld) exFlight = Except.ok 5 :=
  (load_missing_price_stats_unclipped exArtifactOld exFlight [10] [] rfl (by rfl)).2

/-- C1 (amended): `load_and_preprocess_data` applies its operations in
the order the source executes them: deduplicate; compute Q1/Q3 over the
*deduplicated* rows and drop price outliers; record min/max (and mean)
over the post-outlier rows; and only afterwards apply the timestamp,
flight-date and aircraft-type filters.  The quartiles and the min/max
recorded in `price_stats` are therefore computed over rows that have
NOT yet passed those three filters. -/
theorem clean_pipeline_order (rows : List RawRow) :
    (load_and_preprocess_data rows).rows
        = aircraftFilter (fdFilter (tsFilter (outlierFilter (dropDuplicates rows))))
    ∧ (load_and_preprocess_data rows).stats.Q1
        = quantile ((dropDuplicates rows).map RawRow.price) (1/4)
    ∧ (load_and_preprocess_data rows).stats.Q3
        = quantile ((dropDuplicates rows).map RawRow.price) (3/4)
    ∧ (load_and_preprocess_data rows).stats.min
        = listMin ((outlierFilter (dropDuplicates rows)).map RawRow.price)
    ∧ (load_and_preprocess_data rows).stats.max
        = listMax ((outlierFilter (dropDuplicates rows)).map RawRow.price)
    ∧ (load_and_preprocess_data rows).stats.mean
        = listMean ((outlierFilter (dropDuplicates rows)).map RawRow.price) :=
  ⟨rfl, rfl, rfl, rfl, rfl, rfl⟩

/-- Four distinct well-formed rows priced 10. -/
def exRowA : RawRow :=
  { create_at := "2024-01-15 10:30:00", flight_number := "VJ101",
    type_of_plane := "Airbus A321", departure_airport := "SGN",
    arrival_airport := "HAN", flight_date := "2024-01-20T08:00:00",
    departure_time := "08:00", arrival_time := "10:15", classes := "Eco",
    price := 10 }

def exRowB : RawRow := { exRowA with flight_number := "VJ102" }

def exRowC : RawRow := { exRowA with flight_number := "VJ103" }

def exRowD : RawRow := { exRowA with flight_number := "VJ104" }

/-- A fully well-formed row priced 100. -/
def exPricyRow : RawRow := { exRowA with flight_number := "VJ105", price := 100 }

/-- A row priced 100 whose creation timestamp does not parse: it should
be dropped by the timestamp filter, but under the source's order it
still participates in the quartile computation. -/
def exBadTsRow : RawRow :=
  { exRowA with flight_number := "VJ106", create_at := "garbage", price := 100 }

def exCleanRows : List RawRow :=
  [exRowA, exRowB, exRowC, exRowD, exPricyRow, exBadTsRow]

/-- C1 counterexample: on `exCleanRows` the source pipeline computes the
quartiles over all six deduplicated rows — including the
garbage-timestamp row — giving Q3 = 77.5, broad outlier bounds, and a
surviving 100-priced row; under the claim's order the quartiles are
computed after the filters over five rows of prices
`[10,10,10,10,100]`, giving Q1 = Q3 = 10, outlier bounds `[10, 10]`,
and the 100-priced row is dropped.  Both the recorded quartiles and the
surviving row set differ, so the claimed order is not the code's
order. -/
theorem clean_order_differs_cex :
    (load_and_preprocess_data exCleanRows).stats.Q3 = 155/2
    ∧ (load_and_preprocess_spec_order exCleanRows).stats.Q3 = 10
    ∧ exPricyRow ∈ (load_and_preprocess_data exCleanRows).rows
    ∧ exPricyRow ∉ (load_and_preprocess_spec_order exCleanRows).rows := by
  refine ⟨by with_unfolding_all decide, by with_unfolding_all decide,
    by with_unfolding_all decide, by with_unfolding_all decide⟩

end FlightModel
